import Mathlib

/-!
Verification of the react-kindergarden child-registration library.

The repository contains two near-duplicate implementations in one source
file, `src/src/Kindergarden.tsx`:

* the newer "Kindergarten" variant (lines 462-623): a registry closure
  holding `state : MutableRefObject<Data|null>[]` plus rebindable hooks
  `onAdd/onRemove/onUpdate`, a context callable returning
  `setData`/`unregister` handles, `useKindergarten`, and `useUpdate`;
* the older "Kindergarden" variant (lines 1-109): a component writing
  directly into an externally owned `registry.current` array, with an
  `onRegister` callback and a hook returning a ref callback.

Records are mutable cells compared by reference identity; we embed them
with an arena: each registration draws a fresh natural-number id
(`nextId`), the registry order is a `List Nat` of ids, and the mutable
cell contents live in a functional store `Nat → Option Data`.
Observer-callback invocations are reified as explicit event lists.
-/

namespace Kindergarten

/-- One observer-callback invocation of the newer variant's registry:
`onAdd()` takes no arguments in this variant, `onUpdate(index, data)`
reports a current index plus the record's current cell value, and
`onRemove(index)` reports the index occupied just before removal. -/
inductive REvent (Data : Type) where
  | add : REvent Data
  | update : Nat → Option Data → REvent Data
  | remove : Nat → REvent Data
  deriving DecidableEq

/-- Which of the three observer hooks are currently bound
(`hooks.onAdd?.()` etc. fire only when bound). -/
structure RegistryHooks where
  onAdd : Bool
  onRemove : Bool
  onUpdate : Bool
  deriving DecidableEq

/-- The registry closure created by the Kindergarten component's
`useMemo` (source lines 510-535): the ordered `state` array of record
cells (arena ids), the cells' current contents, the arena counter, and
the mutable `hooks` object. -/
structure Registry (Data : Type) where
  state : List Nat
  store : Nat → Option Data
  nextId : Nat
  hooks : RegistryHooks

/-- Functional update of the cell store (`ref.current = v`). -/
def setStore {Data : Type} (f : Nat → Option Data) (i : Nat) (v : Option Data) :
    Nat → Option Data :=
  fun j => if j = i then v else f j

/-- The registry value built inside `useMemo` before the component body
rebinds the hooks: empty state, no hooks bound yet. -/
def Registry.init {Data : Type} : Registry Data :=
  { state := [], store := fun _ => none, nextId := 0,
    hooks := { onAdd := false, onRemove := false, onUpdate := false } }

/-- `add(data) { state.push(data); hooks.onAdd?.(); }` (lines 515-518). -/
def Registry.add {Data : Type} (r : Registry Data) (id : Nat) :
    Registry Data × List (REvent Data) :=
  ({ r with state := r.state ++ [id] },
   if r.hooks.onAdd then [.add] else [])

/-- `update(data)` (lines 519-526): if `onUpdate` is bound, look the cell
up by identity; when found (`index !== -1`) report its current index and
current contents; the registry state is not changed. -/
def Registry.update {Data : Type} (r : Registry Data) (id : Nat) :
    List (REvent Data) :=
  if r.hooks.onUpdate then
    let index := r.state.indexOf id
    if index < r.state.length then [.update index (r.store id)] else []
  else []

/-- `remove(data)` (lines 527-533): look the cell up by identity; when
found, splice it out and report the index it occupied; otherwise do
nothing. -/
def Registry.remove {Data : Type} (r : Registry Data) (id : Nat) :
    Registry Data × List (REvent Data) :=
  let index := r.state.indexOf id
  if index < r.state.length then
    ({ r with state := r.state.eraseIdx index },
     if r.hooks.onRemove then [.remove index] else [])
  else (r, [])

/-- The body of the context callable `register()` (lines 543-561):
allocate a fresh cell with `current = null`, then `registry.add(ref)`.
Returns the new cell's id. -/
def registerChild {Data : Type} (r : Registry Data) :
    Registry Data × Nat × List (REvent Data) :=
  let id := r.nextId
  let r0 := { r with nextId := r.nextId + 1, store := setStore r.store id none }
  let (r1, ev) := Registry.add r0 id
  (r1, id, ev)

/-- The registry-side effect of `setData(data)` (lines 548-552):
`ref.current = data` followed by `registry.update(ref)`; the update
notification therefore reads the freshly written cell. -/
def setDataReg {Data : Type} (r : Registry Data) (id : Nat) (d : Option Data) :
    Registry Data × List (REvent Data) :=
  let r1 := { r with store := setStore r.store id d }
  (r1, Registry.update r1 id)

/-- The per-registration handle: the cell id plus the publicly readable
`setData.current` field (initialised to `null` at line 553). -/
structure Handle (Data : Type) where
  id : Nat
  sdCurrent : Option Data

/-- One full `register()` call as seen by a descendant: fresh record plus
its handle with `setData.current = null`. -/
def registerHandle {Data : Type} (r : Registry Data) :
    Registry Data × Handle Data × List (REvent Data) :=
  let (r1, id, ev) := registerChild r
  (r1, { id := id, sdCurrent := none }, ev)

/-- `setData(data)` in full (lines 548-553): writes the cell, writes
`setData.current`, then notifies the registry. -/
def setData {Data : Type} (r : Registry Data) (h : Handle Data) (d : Option Data) :
    Registry Data × Handle Data × List (REvent Data) :=
  let (r1, ev) := setDataReg r h.id d
  (r1, { h with sdCurrent := d }, ev)

/-- `unregister() { registry.remove(ref); }` (lines 556-559). -/
def unregister {Data : Type} (r : Registry Data) (h : Handle Data) :
    Registry Data × List (REvent Data) :=
  Registry.remove r h.id

/-- Number of `onUpdate` invocations in an event trace. -/
def countUpdates {Data : Type} : List (REvent Data) → Nat
  | [] => 0
  | .update _ _ :: t => countUpdates t + 1
  | _ :: t => countUpdates t

/-- Number of `onAdd` invocations in an event trace. -/
def countAdds {Data : Type} : List (REvent Data) → Nat
  | [] => 0
  | .add :: t => countAdds t + 1
  | _ :: t => countAdds t

/-- Number of `onRemove` invocations in an event trace. -/
def countRemoves {Data : Type} : List (REvent Data) → Nat
  | [] => 0
  | .remove _ :: t => countRemoves t + 1
  | _ :: t => countRemoves t

/-- `n` consecutive registrations through one coordinator context
(each descendant mount calls the context callable once). Returns the
final registry, the fresh ids in registration order, and the events. -/
def registerMany {Data : Type} (r : Registry Data) : Nat → Registry Data × List Nat × List (REvent Data)
  | 0 => (r, [], [])
  | n + 1 =>
    let (r1, id, ev1) := registerChild r
    let (r2, ids, ev2) := registerMany r1 n
    (r2, id :: ids, ev1 ++ ev2)

/-- Result of evaluating `useKindergarten` (source lines 599-615): a
real registration against the ambient registry, or the stand-in built
by `noopRegister` (lines 617-623) when the hook is `optional` and no
coordinator is bound. -/
inductive HookInit (Data : Type) where
  | real : Registry Data → Handle Data → List (REvent Data) → HookInit Data
  | noop : HookInit Data

/-- The `setData` of the `noopRegister` stand-in: does nothing — no
state change, no observer call. -/
def noopSetData {Data : Type} (r : Registry Data) (_d : Option Data) :
    Registry Data × List (REvent Data) :=
  (r, [])

/-- The `unregister` of the `noopRegister` stand-in: does nothing. -/
def noopUnregister {Data : Type} (r : Registry Data) :
    Registry Data × List (REvent Data) :=
  (r, [])

/-- `useKindergarten` (source lines 599-615): resolve the ambient
context; when no coordinator is bound, either throw the fixed
missing-coordinator error or, when `optional`, fall back to the no-op
stand-in; otherwise register once against the ambient registry. -/
def useKindergarten {Data : Type} (ctx : Option (Registry Data))
    (optional : Bool) : Except String (HookInit Data) :=
  match ctx with
  | none =>
    if optional then .ok .noop
    else .error "Can not useKindergarten outside of <Kindergarten>"
  | some r =>
    let (r1, h, ev) := registerHandle r
    .ok (.real r1 h ev)

/-- The missing-coordinator guard of `useUpdate` (source lines 581-585):
the resync primitive offers no opt-out and throws its fixed error
whenever no coordinator is bound to the resolved context. -/
def useUpdateGuard {β : Type} (ctx : Option β) : Except String β :=
  match ctx with
  | none => .error "Can not useUpdate outside of <Kindergarten>"
  | some reg => .ok reg

/-- Persistent per-instance state of the resync primitive `useUpdate`
(source lines 574-593): the `isInitial` ref (initialised from
`ignoreInitial`, default `true`) and the dependency list stored by the
effect hook at the previous evaluation. Dependency entries are embedded
as naturals standing for shallow identities. -/
structure UseUpdateState where
  isInitial : Bool
  prevDeps : Option (List Nat)
  deriving DecidableEq

/-- Hook-instance state at mount. -/
def initUseUpdate (ignoreInitial : Bool) : UseUpdateState :=
  { isInitial := ignoreInitial, prevDeps := none }

/-- One evaluation of `useUpdate`: per the host framework's effect
contract, the effect body runs after the first render and after any
render whose dependency list differs in shallow identity/order from
the stored one; the body consumes `isInitial` on its first run and
otherwise calls the coordinator context's `update()` once. Returns the
new instance state and the number of `update()` calls made. -/
def useUpdateEval (st : UseUpdateState) (deps : List Nat) :
    UseUpdateState × Nat :=
  let fire := match st.prevDeps with
    | none => true
    | some d => decide (d ≠ deps)
  if fire then
    if st.isInitial then ({ isInitial := false, prevDeps := some deps }, 0)
    else ({ isInitial := st.isInitial, prevDeps := some deps }, 1)
  else ({ isInitial := st.isInitial, prevDeps := some deps }, 0)

/-- `update()` call counts of a chain of evaluations from a given
instance state. -/
def useUpdateCountsFrom (st : UseUpdateState) : List (List Nat) → List Nat
  | [] => []
  | d :: ds =>
    let p := useUpdateEval st d
    p.2 :: useUpdateCountsFrom p.1 ds

/-- `update()` call counts of a full evaluation sequence of one
`useUpdate` instance configured with the given `ignoreInitial`. -/
def useUpdateCounts (ignoreInitial : Bool) (depsSeq : List (List Nat)) :
    List Nat :=
  useUpdateCountsFrom (initUseUpdate ignoreInitial) depsSeq

/-- Specification-side characterisation: 1 for every evaluation whose
dependency list differs from its predecessor's, 0 otherwise. -/
def depsChangedFlags : List Nat → List (List Nat) → List Nat
  | _, [] => []
  | prev, d :: ds => (if d ≠ prev then 1 else 0) :: depsChangedFlags d ds

/-- Persistent state of one mounted Kindergarten component: the
`useMemo` slot holding the registry closure (deps `[]`, so the factory
runs only on the first render) and the `triggerUpdate` render-state (a
fresh symbol per `update()` call, embedded as a counter). The memoised
register callable has deps `[triggerUpdate, registry]`; with the
registry stable its identity is determined by `triggerUpdate`, so the
trigger counter doubles as the callable's identity tag. -/
structure KInstance (Data : Type) where
  registryMemo : Option (Registry Data)
  trigger : Nat

/-- Component instance state at mount. -/
def initKInstance (Data : Type) : KInstance Data :=
  { registryMemo := none, trigger := 0 }

/-- One render of the Kindergarten component body (source lines
503-568): reuse the memoised registry (creating it only on the first
render), assign the three observer props onto its `hooks` object, and
provide the register callable whose identity is the current trigger
value. Returns the new instance state, the registry exposed to
descendants, and the register callable's identity tag. -/
def renderKindergarten {Data : Type} (inst : KInstance Data)
    (hooks : RegistryHooks) : KInstance Data × Registry Data × Nat :=
  let reg := inst.registryMemo.getD Registry.init
  let reg' := { reg with hooks := hooks }
  ({ inst with registryMemo := some reg' }, reg', inst.trigger)

/-- `callback.update = () => setTriggerUpdate(Symbol())` (source line
562): the update() signal only replaces the trigger symbol, forcing the
register callable's identity to change on the re-render it schedules. -/
def triggerUpdateSignal {Data : Type} (inst : KInstance Data) :
    KInstance Data :=
  { inst with trigger := inst.trigger + 1 }

/-- The hook configuration with all three observers bound (the
configuration under which the claim about `onUpdate` reporting is
made). -/
def allHooks : RegistryHooks :=
  { onAdd := true, onRemove := true, onUpdate := true }

/-- Commit-phase reference detachment: for each descendant (in render
order) the previous render's `setData` ref callback is invoked with
`null` before the new callbacks are attached, i.e. `setData(null)` runs
against each OLD record. -/
def detachAll {Data : Type} : Registry Data → List Nat → Registry Data × List (REvent Data)
  | r, [] => (r, [])
  | r, o :: os =>
    let p := setDataReg r o none
    let q := detachAll p.1 os
    (q.1, p.2 ++ q.2)

/-- Layout-phase reference attachment: the new render's `setData` ref
callbacks are invoked with the live elements, i.e. `setData(element)`
runs against each NEW record in render order. -/
def attachAll {Data : Type} : Registry Data → List (Nat × Data) → Registry Data × List (REvent Data)
  | r, [] => (r, [])
  | r, p :: ps =>
    let q := setDataReg r p.1 (some p.2)
    let w := attachAll q.1 ps
    (w.1, q.2 ++ w.2)

/-- Passive-effect cleanup: each descendant's previous
`useEffect(() => () => unregister(), [unregister])` cleanup runs,
removing the OLD records in render order. -/
def removeAll {Data : Type} : Registry Data → List Nat → Registry Data × List (REvent Data)
  | r, [] => (r, [])
  | r, o :: os =>
    let p := Registry.remove r o
    let q := removeAll p.1 os
    (q.1, p.2 ++ q.2)

/-- The observable cascade of the `update()` signal of the newer
Kindergarten variant (source lines 540-565), derived from the source's
hook wiring and the host framework's lifecycle contract (spec section
5): `update()` replaces the `triggerUpdate` symbol, so the memoised
register callable (deps `[triggerUpdate, registry]`) gets a new
identity on the scheduled re-render; every descendant's
`useMemo(() => register(), [register])` therefore re-runs, appending a
fresh record (render phase); the changed `setData` ref callbacks are
then detached from the old records (`setData(null)`, mutation phase)
and attached to the new ones (`setData(element)`, layout phase); and
finally each descendant's previous `unregister` cleanup runs (passive
phase), removing its old record. Descendants are processed in render
order; `elems` are their live elements. -/
def resyncCascade {Data : Type} (r : Registry Data) (elems : List Data) :
    Registry Data × List (REvent Data) :=
  let olds := r.state
  let a := registerMany r olds.length
  let b := detachAll a.1 olds
  let c := attachAll b.1 (a.2.1.zip elems)
  let e := removeAll c.1 olds
  (e.1, a.2.2 ++ b.2 ++ c.2 ++ e.2)

end Kindergarten

namespace Kindergarden

/-- One child entry of the older variant (source lines 13-16):
`{ $el: ElementType | null, data?: Data }`. -/
structure Kind (El Data : Type) where
  el : Option El
  data : Option Data
  deriving DecidableEq

/-- The externally owned `registry.current` array of the older variant,
embedded as an arena: `entries` is the ordered list of entry ids and
`kinds` the entries' current contents. -/
structure OldRegistry (El Data : Type) where
  entries : List Nat
  kinds : Nat → Kind El Data
  nextId : Nat

/-- Observer-call vocabulary of the older variant. `onRegister(entry)`
is the only callback this variant ever invokes; the `onUpdate`
constructor is the indexed data-announcement the specification speaks
of, and is part of the vocabulary so that its absence from every trace
of this variant is statable. -/
inductive KgEvent (El Data : Type) where
  | onRegister : Kind El Data → KgEvent El Data
  | onUpdate : Nat → Option Data → KgEvent El Data
  deriving DecidableEq

/-- Number of indexed `onUpdate` announcements in an old-variant trace. -/
def countKgUpdates {El Data : Type} : List (KgEvent El Data) → Nat
  | [] => 0
  | .onUpdate _ _ :: t => countKgUpdates t + 1
  | _ :: t => countKgUpdates t

/-- JavaScript `array.splice(start, 1)` restricted to its deletion
effect: a negative `start` counts from the end of the array (clamped at
0), a non-negative one is clamped at the length; one element at the
resulting position is deleted. In particular `splice(-1, 1)` deletes the
LAST element of a non-empty array. -/
def jsSpliceDelete1 {α : Type} (l : List α) (idx : Int) : List α :=
  let st : Nat := if idx < 0 then (l.length + idx).toNat else min idx.toNat l.length
  l.take st ++ l.drop (st + 1)

/-- JavaScript `array.indexOf(x)`: first index by identity, `-1` when
absent. -/
def jsIndexOf (l : List Nat) (a : Nat) : Int :=
  if a ∈ l then l.indexOf a else -1

/-- The context callable of the older variant (source lines 49-69):
build `{ $el: null, data }`, push it onto `registry.current`, invoke
`onRegister(entry)` when bound, and hand back the fresh entry's id. -/
def oldRegister {El Data : Type} (s : OldRegistry El Data)
    (hasOnRegister : Bool) (d : Option Data) :
    OldRegistry El Data × Nat × List (KgEvent El Data) :=
  let id := s.nextId
  let entry : Kind El Data := { el := none, data := d }
  ({ entries := s.entries ++ [id],
     kinds := fun j => if j = id then entry else s.kinds j,
     nextId := s.nextId + 1 },
   id,
   if hasOnRegister then [.onRegister entry] else [])

/-- `updateData(data) { entry.data = data; }` (lines 59-61): an
in-place mutation of the entry, with no observer notification of any
kind. -/
def oldUpdateData {El Data : Type} (s : OldRegistry El Data)
    (id : Nat) (d : Option Data) :
    OldRegistry El Data × List (KgEvent El Data) :=
  ({ s with kinds := fun j => if j = id then { s.kinds j with data := d } else s.kinds j },
   [])

/-- `unregister() { registry.current.splice(registry.current.indexOf(entry), 1); }`
(lines 65-67). Note the missing `-1` guard: when the entry is no longer
present, `indexOf` yields `-1` and `splice(-1, 1)` deletes the last
stored entry. No callback is invoked either way. -/
def oldUnregister {El Data : Type} (s : OldRegistry El Data) (id : Nat) :
    OldRegistry El Data :=
  { s with entries := jsSpliceDelete1 s.entries (jsIndexOf s.entries id) }

/-- Props of the older Kindergarden coordinator component (source lines
31-36): the externally supplied registry object is a REQUIRED prop and
`onRegister` is an optional inline observer callback; `children` and
the custom `context` binding have no bearing on setup and are omitted. -/
structure KindergardenProps (El Data : Type) where
  registry : OldRegistry El Data
  onRegister : Bool

/-- The coordinator component body executed at setup (source lines
38-75): it stores the callback into a ref, memoises the register
callable bound to the supplied registry, and provides it to the
subtree. The body contains no validation and no throw statement, so
setup always succeeds with the callable's configuration — in
particular when the external registry and the observer callback are
both supplied. -/
def kindergardenSetup {El Data : Type} (p : KindergardenProps El Data) :
    Except String (OldRegistry El Data × Bool) :=
  .ok (p.registry, p.onRegister)

/-- Persistent per-instance state of the older variant's
`useKindergarden` hook (source lines 82-109): the memoised handle
(cached entry id) with the identity of the register callable that
produced it (`useMemo` deps `[register]`), and the dependency pair
stored by the `updateData` effect (`useEffect(..., [updateData, data])`;
the `updateData` closure's identity is determined by the handle). -/
structure OldHookState (El Data : Type) where
  handleId : Nat
  registerGen : Nat
  prevEffectDeps : Option (Nat × Option Data)
  deriving DecidableEq

/-- One evaluation (render plus effect phase) of `useKindergarden`
inside a coordinator: re-run `register(data)` only when the register
callable's identity changed (or on the first evaluation), then run the
`updateData(data)` effect per the host framework's contract — after
the first render and after any render where `[updateData, data]`
changed. Returns the registry, the new hook state, the number of
`updateData` calls made, and the observer events emitted. -/
def useKindergardenEval {El Data : Type} [DecidableEq Data]
    (s : OldRegistry El Data) (st : Option (OldHookState El Data))
    (registerGen : Nat) (hasOnRegister : Bool) (d : Option Data) :
    OldRegistry El Data × OldHookState El Data × Nat × List (KgEvent El Data) :=
  let memo :=
    match st with
    | some prev =>
      if prev.registerGen = registerGen then
        (s, prev.handleId, ([] : List (KgEvent El Data)))
      else oldRegister s hasOnRegister d
    | none => oldRegister s hasOnRegister d
  let s1 := memo.1
  let hid := memo.2.1
  let ev1 := memo.2.2
  let deps : Nat × Option Data := (hid, d)
  let prevDeps :=
    match st with
    | some prev => prev.prevEffectDeps
    | none => none
  let fire :=
    match prevDeps with
    | none => true
    | some pd => decide (pd ≠ deps)
  if fire then
    let u := oldUpdateData s1 hid d
    (u.1, { handleId := hid, registerGen := registerGen,
            prevEffectDeps := some deps }, 1, ev1 ++ u.2)
  else
    (s1, { handleId := hid, registerGen := registerGen,
           prevEffectDeps := some deps }, 0, ev1)

end Kindergarden

/-- The invariant of C10: the handle's publicly readable
`setData.current` always equals the registry record's stored cell
value. -/
def handleInv {Data : Type} (r : Kindergarten.Registry Data)
    (h : Kindergarten.Handle Data) : Prop :=
  h.sdCurrent = r.store h.id

namespace Kindergarten

theorem registerMany_state {Data : Type} :
    ∀ (n : Nat) (r : Registry Data),
      (registerMany r n).1.state = r.state ++ List.range' r.nextId n ∧
      (registerMany r n).1.nextId = r.nextId + n ∧
      (registerMany r n).1.hooks = r.hooks ∧
      (registerMany r n).2.1 = List.range' r.nextId n := by
  intro n
  induction n with
  | zero => intro r; simp [registerMany]
  | succ n ih =>
    intro r
    have h := ih ({ r with
      nextId := r.nextId + 1,
      store := setStore r.store r.nextId none,
      state := r.state ++ [r.nextId] })
    simp only [registerMany, registerChild, Registry.add] at *
    refine ⟨?_, ?_, ?_, ?_⟩
    · rw [h.1]
      simp [List.range'_succ, Nat.add_comm]
    · rw [h.2.1]; omega
    · rw [h.2.2.1]
    · rw [h.2.2.2]
      simp [List.range'_succ]

/-- C3: each `add` through the coordinator appends the fresh record at
the end of the ordered sequence and grows the length by one; iterating
`N` registrations from the freshly created registry therefore yields the
records in registration order, 1:1, length `N`. -/
theorem c3_add_appends_registration_order {Data : Type}
    (r : Registry Data) (id n N : Nat) :
    (Registry.add r id).1.state = r.state ++ [id] ∧
    (Registry.add r id).1.state.length = r.state.length + 1 ∧
    (registerMany r n).1.state = r.state ++ List.range' r.nextId n ∧
    (registerMany (Registry.init : Registry Data) N).1.state = List.range N ∧
    (registerMany (Registry.init : Registry Data) N).1.state.length = N := by
  refine ⟨rfl, by simp [Registry.add], (registerMany_state n r).1, ?_, ?_⟩
  · rw [(registerMany_state N Registry.init).1]
    simp [Registry.init, List.range_eq_range']
  · rw [(registerMany_state N Registry.init).1]
    simp [Registry.init]

theorem getElem?_eraseIdx_of_gt {α : Type} (l : List α) (i j : Nat)
    (hij : i < j) (hj : j < l.length) :
    (l.eraseIdx i)[j - 1]? = l[j]? := by
  rw [List.eraseIdx_eq_take_drop_succ]
  have hi : i < l.length := Nat.lt_trans hij hj
  have htake : (l.take i).length = i := by
    simp [List.length_take, Nat.le_of_lt hi]
  rw [List.getElem?_append_right (by omega)]
  rw [htake, List.getElem?_drop]
  congr 1
  omega

/-- C4: removing a record present at index `i` (records are pairwise
distinct cells) splices out exactly that record, reports `onRemove i`
with the index occupied immediately before removal, shrinks the length
by one, and shifts every later record down by one index. -/
theorem c4_remove_reports_prior_index {Data : Type}
    (r : Registry Data) (i rid : Nat)
    (hnd : r.state.Nodup) (hget : r.state[i]? = some rid)
    (hrm : r.hooks.onRemove = true) :
    (Registry.remove r rid).1.state = r.state.eraseIdx i ∧
    (Registry.remove r rid).2 = [.remove i] ∧
    (Registry.remove r rid).1.state.length + 1 = r.state.length ∧
    ∀ j, i < j → j < r.state.length →
      (Registry.remove r rid).1.state[j - 1]? = r.state[j]? := by
  have hi : i < r.state.length := by
    by_contra hcon
    rw [List.getElem?_eq_none (by omega)] at hget
    exact Option.noConfusion hget
  have hval : r.state[i] = rid := by
    have := List.getElem?_eq_getElem hi
    rw [this] at hget
    exact Option.some_injective _ hget
  have hidx : r.state.indexOf rid = i := by
    rw [← hval]
    exact List.indexOf_getElem hnd i hi
  have hlt : r.state.indexOf rid < r.state.length := by rw [hidx]; exact hi
  refine ⟨?_, ?_, ?_, ?_⟩
  · simp only [Registry.remove, hidx, if_pos hi]
  · simp only [Registry.remove, hidx, if_pos hi, hrm, if_true]
  · simp only [Registry.remove, hidx, if_pos hi]
    exact List.length_eraseIdx_add_one hi
  · intro j hij hj
    simp only [Registry.remove, hidx, if_pos hi]
    exact getElem?_eraseIdx_of_gt r.state i j hij hj

/-- Witness for C4 at a concrete registry `[5, 7, 9]`, removing the
record `7` sitting at index 1. -/
theorem c4_remove_reports_prior_index_witness :
    (([5, 7, 9] : List Nat).Nodup ∧ ([5, 7, 9] : List Nat)[1]? = some 7) ∧
    (Registry.remove
      ({ state := [5, 7, 9], store := fun _ => none, nextId := 10,
         hooks := { onAdd := true, onRemove := true, onUpdate := true } } : Registry Nat)
      7).1.state = [5, 9] ∧
    (Registry.remove
      ({ state := [5, 7, 9], store := fun _ => none, nextId := 10,
         hooks := { onAdd := true, onRemove := true, onUpdate := true } } : Registry Nat)
      7).2 = [.remove 1] := by
  refine ⟨⟨by decide, by decide⟩, ?_, ?_⟩
  · exact (c4_remove_reports_prior_index _ 1 7 (by decide) (by decide) rfl).1
  · exact (c4_remove_reports_prior_index _ 1 7 (by decide) (by decide) rfl).2.1

theorem useUpdateCountsFrom_settled (p : List Nat) :
    ∀ ds : List (List Nat),
      useUpdateCountsFrom { isInitial := false, prevDeps := some p } ds =
        depsChangedFlags p ds := by
  intro ds
  induction ds generalizing p with
  | nil => rfl
  | cons d t ih =>
    by_cases hd : p = d
    · subst hd
      simp [useUpdateCountsFrom, useUpdateEval, depsChangedFlags, ih]
    · simp [useUpdateCountsFrom, useUpdateEval, depsChangedFlags, hd,
        Ne.symm hd, ih]

theorem countUpdates_append {Data : Type} :
    ∀ a b : List (REvent Data),
      countUpdates (a ++ b) = countUpdates a + countUpdates b := by
  intro a b
  induction a with
  | nil => simp [countUpdates]
  | cons x t ih =>
    cases x <;> simp [countUpdates, ih, Nat.add_right_comm]

theorem countAdds_append {Data : Type} :
    ∀ a b : List (REvent Data),
      countAdds (a ++ b) = countAdds a + countAdds b := by
  intro a b
  induction a with
  | nil => simp [countAdds]
  | cons x t ih =>
    cases x <;> simp [countAdds, ih, Nat.add_right_comm]

theorem countRemoves_append {Data : Type} :
    ∀ a b : List (REvent Data),
      countRemoves (a ++ b) = countRemoves a + countRemoves b := by
  intro a b
  induction a with
  | nil => simp [countRemoves]
  | cons x t ih =>
    cases x <;> simp [countRemoves, ih, Nat.add_right_comm]

theorem setDataReg_event {Data : Type} (r : Registry Data) (id : Nat)
    (d : Option Data) (hu : r.hooks.onUpdate = true) (hm : id ∈ r.state) :
    (setDataReg r id d).2 = [.update (r.state.indexOf id) d] := by
  have hlt : r.state.indexOf id < r.state.length := List.indexOf_lt_length.2 hm
  simp [setDataReg, Registry.update, setStore, hu, hlt]

theorem detachAll_spec {Data : Type} :
    ∀ (os : List Nat) (r : Registry Data),
      r.hooks.onUpdate = true → (∀ o ∈ os, o ∈ r.state) →
      (detachAll r os).1.state = r.state ∧
      (detachAll r os).1.hooks = r.hooks ∧
      (detachAll r os).1.nextId = r.nextId ∧
      countUpdates (detachAll r os).2 = os.length ∧
      countAdds (detachAll r os).2 = 0 ∧
      countRemoves (detachAll r os).2 = 0 := by
  intro os
  induction os with
  | nil => intro r _ _; simp [detachAll, countUpdates, countAdds, countRemoves]
  | cons o t ih =>
    intro r hu hsub
    have hev := setDataReg_event r o none hu (hsub o (by simp))
    have hstep : (setDataReg r o none).1.state = r.state := rfl
    have hh : (setDataReg r o none).1.hooks = r.hooks := rfl
    have hn : (setDataReg r o none).1.nextId = r.nextId := rfl
    have ht := ih (setDataReg r o none).1 (by rw [hh]; exact hu)
      (by rw [hstep]; intro x hx; exact hsub x (by simp [hx]))
    refine ⟨?_, ?_, ?_, ?_, ?_, ?_⟩
    · show ((detachAll (setDataReg r o none).1 t).1).state = r.state
      rw [ht.1, hstep]
    · show ((detachAll (setDataReg r o none).1 t).1).hooks = r.hooks
      rw [ht.2.1, hh]
    · show ((detachAll (setDataReg r o none).1 t).1).nextId = r.nextId
      rw [ht.2.2.1, hn]
    · show countUpdates ((setDataReg r o none).2 ++ (detachAll (setDataReg r o none).1 t).2) = t.length + 1
      rw [countUpdates_append, hev, ht.2.2.2.1]
      simp [countUpdates]
      omega
    · show countAdds ((setDataReg r o none).2 ++ (detachAll (setDataReg r o none).1 t).2) = 0
      rw [countAdds_append, hev, ht.2.2.2.2.1]
      simp [countAdds]
    · show countRemoves ((setDataReg r o none).2 ++ (detachAll (setDataReg r o none).1 t).2) = 0
      rw [countRemoves_append, hev, ht.2.2.2.2.2]
      simp [countRemoves]

theorem attachAll_spec {Data : Type} :
    ∀ (ps : List (Nat × Data)) (r : Registry Data),
      r.hooks.onUpdate = true → (∀ p ∈ ps, p.1 ∈ r.state) →
      (attachAll r ps).1.state = r.state ∧
      (attachAll r ps).1.hooks = r.hooks ∧
      countUpdates (attachAll r ps).2 = ps.length ∧
      countAdds (attachAll r ps).2 = 0 ∧
      countRemoves (attachAll r ps).2 = 0 := by
  intro ps
  induction ps with
  | nil => intro r _ _; simp [attachAll, countUpdates, countAdds, countRemoves]
  | cons p t ih =>
    intro r hu hsub
    have hev := setDataReg_event r p.1 (some p.2) hu (hsub p (by simp))
    have hstep : (setDataReg r p.1 (some p.2)).1.state = r.state := rfl
    have hh : (setDataReg r p.1 (some p.2)).1.hooks = r.hooks := rfl
    have ht := ih (setDataReg r p.1 (some p.2)).1 (by rw [hh]; exact hu)
      (by rw [hstep]; intro x hx; exact hsub x (by simp [hx]))
    refine ⟨?_, ?_, ?_, ?_, ?_⟩
    · show ((attachAll (setDataReg r p.1 (some p.2)).1 t).1).state = r.state
      rw [ht.1, hstep]
    · show ((attachAll (setDataReg r p.1 (some p.2)).1 t).1).hooks = r.hooks
      rw [ht.2.1, hh]
    · show countUpdates ((setDataReg r p.1 (some p.2)).2 ++ (attachAll (setDataReg r p.1 (some p.2)).1 t).2) = t.length + 1
      rw [countUpdates_append, hev, ht.2.2.1]
      simp [countUpdates]
      omega
    · show countAdds ((setDataReg r p.1 (some p.2)).2 ++ (attachAll (setDataReg r p.1 (some p.2)).1 t).2) = 0
      rw [countAdds_append, hev, ht.2.2.2.1]
      simp [countAdds]
    · show countRemoves ((setDataReg r p.1 (some p.2)).2 ++ (attachAll (setDataReg r p.1 (some p.2)).1 t).2) = 0
      rw [countRemoves_append, hev, ht.2.2.2.2]
      simp [countRemoves]

theorem remove_head {Data : Type} (r : Registry Data) (o : Nat) (t : List Nat)
    (hst : r.state = o :: t) :
    (Registry.remove r o).1.state = t ∧
    (Registry.remove r o).1.hooks = r.hooks ∧
    (Registry.remove r o).2 = (if r.hooks.onRemove then [.remove 0] else []) := by
  have hidx : r.state.indexOf o = 0 := by
    rw [hst]; exact List.indexOf_cons_self o t
  refine ⟨?_, ?_, ?_⟩ <;> simp [Registry.remove, hidx, hst]

theorem removeAll_spec {Data : Type} :
    ∀ (os rest : List Nat) (r : Registry Data),
      r.state = os ++ rest → r.hooks.onRemove = true →
      (removeAll r os).1.state = rest ∧
      (removeAll r os).1.hooks = r.hooks ∧
      countUpdates (removeAll r os).2 = 0 ∧
      countAdds (removeAll r os).2 = 0 ∧
      countRemoves (removeAll r os).2 = os.length := by
  intro os
  induction os with
  | nil =>
    intro rest r hst _
    simp [removeAll, countUpdates, countAdds, countRemoves, hst]
  | cons o t ih =>
    intro rest r hst hr
    have hh := remove_head r o (t ++ rest) hst
    have hev : (Registry.remove r o).2 = [.remove 0] := by
      rw [hh.2.2, hr]
      simp
    have ht := ih rest (Registry.remove r o).1 hh.1 (by rw [hh.2.1]; exact hr)
    refine ⟨?_, ?_, ?_, ?_, ?_⟩
    · show ((removeAll (Registry.remove r o).1 t).1).state = rest
      exact ht.1
    · show ((removeAll (Registry.remove r o).1 t).1).hooks = r.hooks
      rw [ht.2.1, hh.2.1]
    · show countUpdates ((Registry.remove r o).2 ++ (removeAll (Registry.remove r o).1 t).2) = 0
      rw [countUpdates_append, hev, ht.2.2.1]
      simp [countUpdates]
    · show countAdds ((Registry.remove r o).2 ++ (removeAll (Registry.remove r o).1 t).2) = 0
      rw [countAdds_append, hev, ht.2.2.2.1]
      simp [countAdds]
    · show countRemoves ((Registry.remove r o).2 ++ (removeAll (Registry.remove r o).1 t).2) = t.length + 1
      rw [countRemoves_append, hev, ht.2.2.2.2]
      simp [countRemoves]
      omega

theorem registerMany_counts {Data : Type} :
    ∀ (n : Nat) (r : Registry Data), r.hooks.onAdd = true →
      countAdds (registerMany r n).2.2 = n ∧
      countUpdates (registerMany r n).2.2 = 0 ∧
      countRemoves (registerMany r n).2.2 = 0 := by
  intro n
  induction n with
  | zero => intro r _; simp [registerMany, countAdds, countUpdates, countRemoves]
  | succ n ih =>
    intro r ha
    have hev : (registerChild r).2.2 = [REvent.add] := by
      simp [registerChild, Registry.add, ha]
    have ht := ih (registerChild r).1 (by
      simp only [registerChild, Registry.add]
      exact ha)
    refine ⟨?_, ?_, ?_⟩
    · show countAdds ((registerChild r).2.2 ++ (registerMany (registerChild r).1 n).2.2) = n + 1
      rw [countAdds_append, hev, ht.1]
      simp [countAdds]
      omega
    · show countUpdates ((registerChild r).2.2 ++ (registerMany (registerChild r).1 n).2.2) = 0
      rw [countUpdates_append, hev, ht.2.1]
      simp [countUpdates]
    · show countRemoves ((registerChild r).2.2 ++ (registerMany (registerChild r).1 n).2.2) = 0
      rw [countRemoves_append, hev, ht.2.2]
      simp [countRemoves]

end Kindergarten

namespace Kindergarden

theorem jsSpliceDelete1_neg_one {α : Type} (l : List α) :
    jsSpliceDelete1 l (-1) = l.dropLast := by
  unfold jsSpliceDelete1
  have hst : ((l.length : Int) + (-1)).toNat = l.length - 1 := by omega
  simp only [if_pos (by omega : (-1 : Int) < 0), hst]
  cases l with
  | nil => rfl
  | cons a t =>
    have hlen : (a :: t).length - 1 + 1 = (a :: t).length := by
      simp
    rw [hlen, List.drop_length, List.append_nil, List.dropLast_eq_take]

end Kindergarden

/-- C2 counterexample: invoking the older Kindergarden coordinator with
both an externally supplied registry and the inline `onRegister`
observer callback raises no error — setup returns successfully, and a
descendant registration afterwards proceeds normally (entry appended,
`onRegister` invoked). -/
theorem c2_counterexample :
    (Kindergarden.kindergardenSetup
      ({ registry := { entries := [], kinds := fun _ => { el := none, data := none },
                       nextId := 0 },
         onRegister := true } : Kindergarden.KindergardenProps Unit Unit)).isOk = true ∧
    (Kindergarden.oldRegister
      ({ entries := [], kinds := fun _ => { el := none, data := none },
         nextId := 0 } : Kindergarden.OldRegistry Unit Unit)
      true none).1.entries = [0] ∧
    (Kindergarden.oldRegister
      ({ entries := [], kinds := fun _ => { el := none, data := none },
         nextId := 0 } : Kindergarden.OldRegistry Unit Unit)
      true none).2.2 =
      [.onRegister { el := none, data := none }] := by
  refine ⟨rfl, rfl, rfl⟩

/-- C2 (amended): supplying both an externally supplied registry and
the inline observer callback is NOT rejected: neither coordinator
variant performs a conflicting-mode validation (the newer variant has
no external-registry prop at all, so the configuration is
inexpressible there), setup always completes without an error, and
descendant registration then uses both mechanisms — it appends to the
external registry and invokes the observer callback. -/
theorem c2_setup_never_errors {El Data : Type}
    (p : Kindergarden.KindergardenProps El Data) (d : Option Data) :
    Kindergarden.kindergardenSetup p = .ok (p.registry, p.onRegister) ∧
    (Kindergarden.kindergardenSetup p).isOk = true ∧
    (Kindergarden.oldRegister p.registry p.onRegister d).1.entries =
      p.registry.entries ++ [p.registry.nextId] ∧
    (Kindergarden.oldRegister p.registry true d).2.2 =
      [.onRegister { el := none, data := d }] := by
  refine ⟨rfl, rfl, rfl, rfl⟩

/-- C6: with no coordinator bound to the resolved context, the
registration primitive without `optional` and the resync primitive both
throw synchronously, each with its fixed human-readable
missing-coordinator message; with `optional` set, the registration
primitive returns the no-op stand-in without any error, and both of
the stand-in's operations leave any registry unchanged and invoke no
observer. -/
theorem c6_missing_coordinator {Data : Type}
    (r : Kindergarten.Registry Data) (d : Option Data) :
    @Kindergarten.useKindergarten Data none false =
      .error "Can not useKindergarten outside of <Kindergarten>" ∧
    @Kindergarten.useUpdateGuard (Kindergarten.Registry Data) none =
      .error "Can not useUpdate outside of <Kindergarten>" ∧
    @Kindergarten.useKindergarten Data none true = .ok .noop ∧
    Kindergarten.noopSetData r d = (r, []) ∧
    Kindergarten.noopUnregister r = (r, []) := by
  refine ⟨rfl, rfl, rfl, rfl, rfl⟩

/-- C5 counterexample: in the older Kindergarden variant, calling
`unregister` for an entry (id 5) that is no longer present in a
registry holding entries `[0, 1]` does not leave the stored sequence
unchanged — `splice(indexOf = -1, 1)` deletes the last entry, leaving
`[0]`. -/
theorem c5_counterexample :
    (5 : Nat) ∉ ([0, 1] : List Nat) ∧
    (Kindergarden.oldUnregister
      ({ entries := [0, 1], kinds := fun _ => { el := none, data := none },
         nextId := 2 } : Kindergarden.OldRegistry Unit Unit) 5).entries = [0] ∧
    (Kindergarden.oldUnregister
      ({ entries := [0, 1], kinds := fun _ => { el := none, data := none },
         nextId := 2 } : Kindergarden.OldRegistry Unit Unit) 5).entries ≠ [0, 1] := by
  refine ⟨by decide, by decide, by decide⟩

/-- C5 (amended): in the newer Kindergarten variant, `update` and
`remove` on an absent record are silent no-ops — no observer callback,
sequence unchanged, and (being total functions) nothing is thrown. In
the older Kindergarden variant, `unregister` on an absent entry also
throws nothing and invokes no callback, but does NOT leave the sequence
unchanged: `splice(indexOf(entry) = -1, 1)` deletes the last stored
entry (a no-op only when the registry is empty). -/
theorem c5_missing_record_behaviour {Data El : Type}
    (r : Kindergarten.Registry Data) (id : Nat) (hid : id ∉ r.state)
    (s : Kindergarden.OldRegistry El Data) (id2 : Nat) (h2 : id2 ∉ s.entries) :
    Kindergarten.Registry.update r id = [] ∧
    Kindergarten.Registry.remove r id = (r, []) ∧
    (Kindergarden.oldUnregister s id2).entries = s.entries.dropLast := by
  have hidx : r.state.indexOf id = r.state.length := List.indexOf_of_not_mem hid
  refine ⟨?_, ?_, ?_⟩
  · cases h : r.hooks.onUpdate <;>
      simp [Kindergarten.Registry.update, h, hidx]
  · simp [Kindergarten.Registry.remove, hidx]
  · unfold Kindergarden.oldUnregister
    simp only [Kindergarden.jsIndexOf, if_neg h2]
    rw [Kindergarden.jsSpliceDelete1_neg_one]

/-- Witness for C5 (amended): record 9 is absent from the new-variant
registry `[0, 1]` (update and remove are no-ops there), and entry 5 is
absent from the old-variant registry `[0, 1]` (unregister drops the
last entry). -/
theorem c5_missing_record_behaviour_witness :
    ((9 : Nat) ∉ ([0, 1] : List Nat) ∧ (5 : Nat) ∉ ([0, 1] : List Nat)) ∧
    Kindergarten.Registry.update
      ({ state := [0, 1], store := fun _ => none, nextId := 2,
         hooks := { onAdd := true, onRemove := true, onUpdate := true } }
        : Kindergarten.Registry Nat) 9 = [] ∧
    (Kindergarden.oldUnregister
      ({ entries := [0, 1], kinds := fun _ => { el := none, data := none },
         nextId := 2 } : Kindergarden.OldRegistry Unit Nat) 5).entries =
      ([0, 1] : List Nat).dropLast := by
  refine ⟨⟨by decide, by decide⟩, ?_, ?_⟩
  · exact (c5_missing_record_behaviour _ 9 (by decide)
      ({ entries := [0, 1], kinds := fun _ => { el := none, data := none },
         nextId := 2 } : Kindergarden.OldRegistry Unit Nat) 5 (by decide)).1
  · exact (c5_missing_record_behaviour
      { state := ([0, 1] : List Nat), store := fun _ => (none : Option Nat), nextId := 2,
        hooks := { onAdd := true, onRemove := true, onUpdate := true } }
      9 (by decide) _ 5 (by decide)).2.2

/-- C8: with the default configuration (`ignoreInitial = true`), the
resync primitive makes no `update()` call on its very first evaluation,
and on every subsequent evaluation it calls `update()` exactly once
precisely when the dependency list changed in shallow identity/order
(0 calls otherwise): the per-evaluation call counts are `0` followed by
the change flags of consecutive dependency lists. -/
theorem c8_useUpdate_first_skipped_then_once_per_change
    (d : List Nat) (ds : List (List Nat)) :
    Kindergarten.useUpdateCounts true (d :: ds) =
      0 :: Kindergarten.depsChangedFlags d ds := by
  show Kindergarten.useUpdateCountsFrom _ _ = _
  simp only [Kindergarten.useUpdateCountsFrom, Kindergarten.useUpdateEval,
    Kindergarten.initUseUpdate]
  exact congrArg (0 :: ·) (Kindergarten.useUpdateCountsFrom_settled d ds)

/-- C9: a re-render of the Kindergarten component with rebound observer
callbacks reuses the memoised registry — the stored sequence of
records, the cells, and the arena counter are all those of the existing
registry, only the `hooks` object is reassigned — and the register
callable's identity tag is unchanged (the trigger state is untouched by
an external render), so descendants neither re-register nor
unregister. -/
theorem c9_rerender_rebinds_hooks_only {Data : Type}
    (inst : Kindergarten.KInstance Data) (reg : Kindergarten.Registry Data)
    (hooks : Kindergarten.RegistryHooks)
    (hm : inst.registryMemo = some reg) :
    (Kindergarten.renderKindergarten inst hooks).2.1.state = reg.state ∧
    (Kindergarten.renderKindergarten inst hooks).2.1.store = reg.store ∧
    (Kindergarten.renderKindergarten inst hooks).2.1.nextId = reg.nextId ∧
    (Kindergarten.renderKindergarten inst hooks).2.1.hooks = hooks ∧
    (Kindergarten.renderKindergarten inst hooks).1.registryMemo =
      some { reg with hooks := hooks } ∧
    (Kindergarten.renderKindergarten inst hooks).2.2 = inst.trigger ∧
    (Kindergarten.renderKindergarten inst hooks).1.trigger = inst.trigger := by
  simp [Kindergarten.renderKindergarten, hm]

/-- Witness for C9: a mounted instance holding a registry with records
`[0, 1]`, re-rendered with all three observer callbacks bound. -/
theorem c9_rerender_rebinds_hooks_only_witness :
    (({ registryMemo := some
          { state := [0, 1], store := fun _ => none, nextId := 2,
            hooks := { onAdd := false, onRemove := false, onUpdate := false } },
        trigger := 0 } : Kindergarten.KInstance Nat).registryMemo =
      some { state := [0, 1], store := fun _ => none, nextId := 2,
             hooks := { onAdd := false, onRemove := false, onUpdate := false } }) ∧
    (Kindergarten.renderKindergarten
      ({ registryMemo := some
           { state := [0, 1], store := fun _ => none, nextId := 2,
             hooks := { onAdd := false, onRemove := false, onUpdate := false } },
         trigger := 0 } : Kindergarten.KInstance Nat)
      { onAdd := true, onRemove := true, onUpdate := true }).2.1.state = [0, 1] := by
  refine ⟨rfl, ?_⟩
  exact (c9_rerender_rebinds_hooks_only
    ({ registryMemo := some
         { state := [0, 1], store := fun _ => none, nextId := 2,
           hooks := { onAdd := false, onRemove := false, onUpdate := false } },
       trigger := 0 } : Kindergarten.KInstance Nat)
    { state := [0, 1], store := fun _ => none, nextId := 2,
      hooks := { onAdd := false, onRemove := false, onUpdate := false } }
    { onAdd := true, onRemove := true, onUpdate := true } rfl).1

/-- C10: at creation both the record's cell and `setData.current` are
null and the invariant holds; every `setData(d)` writes `d` to the cell
and to `setData.current` before notifying the registry (the emitted
`onUpdate`, when the record is present and the hook bound, already
carries `d`), so the invariant is preserved by `setData` and by
`unregister` (which touches neither field). -/
theorem c10_setData_current_matches_store {Data : Type}
    (r : Kindergarten.Registry Data) (h : Kindergarten.Handle Data)
    (d : Option Data) (hinv : handleInv r h) :
    (Kindergarten.registerHandle r).2.1.sdCurrent = none ∧
    (Kindergarten.registerHandle r).1.store (Kindergarten.registerHandle r).2.1.id = none ∧
    handleInv (Kindergarten.registerHandle r).1 (Kindergarten.registerHandle r).2.1 ∧
    (Kindergarten.setData r h d).2.1.sdCurrent = d ∧
    (Kindergarten.setData r h d).1.store h.id = d ∧
    handleInv (Kindergarten.setData r h d).1 (Kindergarten.setData r h d).2.1 ∧
    (r.hooks.onUpdate = true → h.id ∈ r.state →
      (Kindergarten.setData r h d).2.2 = [.update (r.state.indexOf h.id) d]) ∧
    handleInv (Kindergarten.unregister r h).1 h := by
  refine ⟨rfl, ?_, ?_, rfl, ?_, ?_, ?_, ?_⟩
  · simp [Kindergarten.registerHandle, Kindergarten.registerChild,
      Kindergarten.Registry.add, Kindergarten.setStore]
  · simp [handleInv, Kindergarten.registerHandle, Kindergarten.registerChild,
      Kindergarten.Registry.add, Kindergarten.setStore]
  · simp [Kindergarten.setData, Kindergarten.setDataReg, Kindergarten.setStore]
  · simp [handleInv, Kindergarten.setData, Kindergarten.setDataReg,
      Kindergarten.setStore]
  · intro hu hmem
    have hlt : r.state.indexOf h.id < r.state.length :=
      List.indexOf_lt_length.2 hmem
    simp [Kindergarten.setData, Kindergarten.setDataReg,
      Kindergarten.Registry.update, hu, hlt, Kindergarten.setStore]
  · have : (Kindergarten.unregister r h).1.store = r.store := by
      unfold Kindergarten.unregister Kindergarten.Registry.remove
      by_cases hlt : r.state.indexOf h.id < r.state.length <;> simp [hlt]
    simpa [handleInv, this] using hinv

/-- Witness for C10 at a concrete registry `[0]` whose cell 0 holds
`some 7`, with a matching handle; setData writes `some 9`. -/
theorem c10_setData_current_matches_store_witness :
    handleInv
      ({ state := [0], store := fun j => if j = 0 then some 7 else none,
         nextId := 1,
         hooks := { onAdd := true, onRemove := true, onUpdate := true } }
        : Kindergarten.Registry Nat)
      { id := 0, sdCurrent := some 7 } ∧
    (Kindergarten.setData
      ({ state := [0], store := fun j => if j = 0 then some 7 else none,
         nextId := 1,
         hooks := { onAdd := true, onRemove := true, onUpdate := true } }
        : Kindergarten.Registry Nat)
      { id := 0, sdCurrent := some 7 } (some 9)).2.1.sdCurrent = some 9 := by
  constructor
  · show some 7 = _
    norm_num
  · exact (c10_setData_current_matches_store _ _ (some 9) (by show some 7 = _; norm_num)).2.2.2.1

/-- C7 counterexample: in the older Kindergarden variant (the cited
`updateData` effect, lines 100-107), a later evaluation with changed
data (`some 1` at registration, then `some 2`) does write the new data
into the record, but produces ZERO indexed `onUpdate` observer calls,
not exactly one — this variant's `updateData` mutates the entry in
place and notifies no observer. -/
theorem c7_counterexample :
    (Kindergarden.countKgUpdates
      (Kindergarden.useKindergardenEval
        (Kindergarden.useKindergardenEval
          ({ entries := [], kinds := fun _ => { el := none, data := none },
             nextId := 0 } : Kindergarden.OldRegistry Unit Nat)
          none 0 true (some 1)).1
        (some (Kindergarden.useKindergardenEval
          ({ entries := [], kinds := fun _ => { el := none, data := none },
             nextId := 0 } : Kindergarden.OldRegistry Unit Nat)
          none 0 true (some 1)).2.1)
        0 true (some 2)).2.2.2 = 0 ∧
     Kindergarden.countKgUpdates
      (Kindergarden.useKindergardenEval
        (Kindergarden.useKindergardenEval
          ({ entries := [], kinds := fun _ => { el := none, data := none },
             nextId := 0 } : Kindergarden.OldRegistry Unit Nat)
          none 0 true (some 1)).1
        (some (Kindergarden.useKindergardenEval
          ({ entries := [], kinds := fun _ => { el := none, data := none },
             nextId := 0 } : Kindergarden.OldRegistry Unit Nat)
          none 0 true (some 1)).2.1)
        0 true (some 2)).2.2.2 ≠ 1) ∧
    ((Kindergarden.useKindergardenEval
        (Kindergarden.useKindergardenEval
          ({ entries := [], kinds := fun _ => { el := none, data := none },
             nextId := 0 } : Kindergarden.OldRegistry Unit Nat)
          none 0 true (some 1)).1
        (some (Kindergarden.useKindergardenEval
          ({ entries := [], kinds := fun _ => { el := none, data := none },
             nextId := 0 } : Kindergarden.OldRegistry Unit Nat)
          none 0 true (some 1)).2.1)
        0 true (some 2)).1.kinds 0).data = some 2 := by
  refine ⟨⟨by decide, by decide⟩, by decide⟩

/-- C7 (amended): in the older Kindergarden variant, no evaluation of
the registration primitive ever produces an indexed `onUpdate`
observer call — the variant has no `onUpdate` observer. The very first
evaluation after obtaining a handle runs the `updateData` effect with
the registration-time data, leaving the record exactly as registration
created it; every later evaluation under the same handle with changed
data calls `updateData` exactly once, writing the new data into the
record in place (all other records untouched, sequence unchanged, no
observer event at all); obtaining a new handle (register identity
changed) re-registers, re-running the effect against the fresh
record. -/
theorem c7_updateData_effect_behaviour {El Data : Type} [DecidableEq Data]
    (s : Kindergarden.OldRegistry El Data) (hasOnRegister : Bool)
    (d d0 : Option Data) (hid gen : Nat) (hchanged : d ≠ d0) :
    (∀ st rg,
      Kindergarden.countKgUpdates
        (Kindergarden.useKindergardenEval s st rg hasOnRegister d).2.2.2 = 0) ∧
    (∀ j, (Kindergarden.useKindergardenEval s none gen hasOnRegister d).1.kinds j =
      (Kindergarden.oldRegister s hasOnRegister d).1.kinds j) ∧
    (Kindergarden.useKindergardenEval s none gen hasOnRegister d).1.entries =
      s.entries ++ [s.nextId] ∧
    (Kindergarden.useKindergardenEval s
        (some { handleId := hid, registerGen := gen,
                prevEffectDeps := some (hid, d0) }) gen hasOnRegister d).2.2.1 = 1 ∧
    (Kindergarden.useKindergardenEval s
        (some { handleId := hid, registerGen := gen,
                prevEffectDeps := some (hid, d0) }) gen hasOnRegister d).1.entries =
      s.entries ∧
    (Kindergarden.useKindergardenEval s
        (some { handleId := hid, registerGen := gen,
                prevEffectDeps := some (hid, d0) }) gen hasOnRegister d).1.kinds hid =
      { s.kinds hid with data := d } ∧
    (∀ j, j ≠ hid →
      (Kindergarden.useKindergardenEval s
          (some { handleId := hid, registerGen := gen,
                  prevEffectDeps := some (hid, d0) }) gen hasOnRegister d).1.kinds j =
        s.kinds j) ∧
    (Kindergarden.useKindergardenEval s
        (some { handleId := hid, registerGen := gen,
                prevEffectDeps := some (hid, d0) }) gen hasOnRegister d).2.2.2 = [] ∧
    (∀ pdeps gen', gen' ≠ gen →
      (Kindergarden.useKindergardenEval s
          (some { handleId := hid, registerGen := gen,
                  prevEffectDeps := pdeps }) gen' hasOnRegister d).1.entries =
        s.entries ++ [s.nextId] ∧
      (Kindergarden.useKindergardenEval s
          (some { handleId := hid, registerGen := gen,
                  prevEffectDeps := pdeps }) gen' hasOnRegister d).2.1.handleId =
        s.nextId) := by
  have hne : d0 ≠ d := fun hcon => hchanged hcon.symm
  refine ⟨?_, ?_, ?_, ?_, ?_, ?_, ?_, ?_, ?_⟩
  · intro st rg
    unfold Kindergarden.useKindergardenEval
    rcases st with _ | prev
    · cases hasOnRegister <;>
        simp [Kindergarden.oldRegister, Kindergarden.oldUpdateData,
          Kindergarden.countKgUpdates]
    · by_cases hg : prev.registerGen = rg <;>
        rcases hpd : prev.prevEffectDeps with _ | pd <;>
        cases hasOnRegister <;>
        simp [hg, hpd, Kindergarden.oldRegister, Kindergarden.oldUpdateData,
          Kindergarden.countKgUpdates] <;>
        split <;>
        simp [Kindergarden.countKgUpdates]
  · intro j
    simp only [Kindergarden.useKindergardenEval, Kindergarden.oldRegister,
      Kindergarden.oldUpdateData, if_pos trivial]
    by_cases hj : j = s.nextId <;> simp [hj]
  · simp [Kindergarden.useKindergardenEval, Kindergarden.oldRegister,
      Kindergarden.oldUpdateData]
  · simp [Kindergarden.useKindergardenEval, Kindergarden.oldUpdateData, hne]
  · simp [Kindergarden.useKindergardenEval, Kindergarden.oldUpdateData, hne]
  · simp [Kindergarden.useKindergardenEval, Kindergarden.oldUpdateData, hne]
  · intro j hj
    simp [Kindergarden.useKindergardenEval, Kindergarden.oldUpdateData, hne, hj]
  · simp [Kindergarden.useKindergardenEval, Kindergarden.oldUpdateData, hne]
  · intro pdeps gen' hg
    constructor <;>
      · simp [Kindergarden.useKindergardenEval, Ne.symm hg,
          Kindergarden.oldRegister, Kindergarden.oldUpdateData]
        split <;> simp [Kindergarden.oldUpdateData]

/-- Witness for C7 (amended) at a concrete old-variant registry with
one entry and data changing from `some 1` to `some 2`. -/
theorem c7_updateData_effect_behaviour_witness :
    ((some 2 : Option Nat) ≠ some 1) ∧
    (Kindergarden.useKindergardenEval
      ({ entries := [0], kinds := fun j => if j = 0 then { el := none, data := some 1 } else { el := none, data := none },
         nextId := 1 } : Kindergarden.OldRegistry Unit Nat)
      (some { handleId := 0, registerGen := 0, prevEffectDeps := some (0, some 1) })
      0 true (some 2)).2.2.1 = 1 := by
  refine ⟨by decide, ?_⟩
  exact (c7_updateData_effect_behaviour
    ({ entries := [0], kinds := fun j => if j = 0 then { el := none, data := some 1 } else { el := none, data := none },
       nextId := 1 } : Kindergarden.OldRegistry Unit Nat)
    true (some 2) (some 1) 0 0 (by decide)).2.2.2.1

/-- C1 counterexample: for a registry holding records `[0, 1]` (with
elements 10 and 20 attached through their descendants), the `update()`
signal's cascade reports `onUpdate` FOUR times (a null detach and an
element attach per descendant), not exactly once per record, and the
stored sequence ends as the two freshly created records `[2, 3]` — it
is not left unchanged. -/
theorem c1_counterexample :
    Kindergarten.countUpdates
      (Kindergarten.resyncCascade
        ({ state := [0, 1], store := fun _ => none, nextId := 2,
           hooks := Kindergarten.allHooks } : Kindergarten.Registry Nat)
        [10, 20]).2 = 4 ∧
    (Kindergarten.resyncCascade
      ({ state := [0, 1], store := fun _ => none, nextId := 2,
         hooks := Kindergarten.allHooks } : Kindergarten.Registry Nat)
      [10, 20]).1.state = [2, 3] ∧
    ¬ (Kindergarten.countUpdates
        (Kindergarten.resyncCascade
          ({ state := [0, 1], store := fun _ => none, nextId := 2,
             hooks := Kindergarten.allHooks } : Kindergarten.Registry Nat)
          [10, 20]).2 = 2 ∧
       (Kindergarten.resyncCascade
        ({ state := [0, 1], store := fun _ => none, nextId := 2,
           hooks := Kindergarten.allHooks } : Kindergarten.Registry Nat)
        [10, 20]).1.state = [0, 1]) := by
  refine ⟨by decide, by decide, by decide⟩

/-- C1 (amended): with all observers bound, the `update()` signal does
not notify `onUpdate` once per record over an unchanged sequence;
instead its cascade re-registers every descendant: for a registry of
`n` records it fires `onAdd` `n` times (fresh records appended),
`onUpdate` `2 * n` times (one null detach against each old record, one
element attach against each new one), and `onRemove` `n` times (old
records torn down), and it leaves the registry holding the `n` freshly
created records (ids `nextId, ..., nextId + n - 1`) in render order —
same count, but none of the original records remain when the arena
invariant (all stored ids below `nextId`) holds. -/
theorem c1_update_signal_recreates_records {Data : Type}
    (r : Kindergarten.Registry Data) (elems : List Data)
    (hhooks : r.hooks = Kindergarten.allHooks)
    (hlen : elems.length = r.state.length)
    (harena : ∀ o ∈ r.state, o < r.nextId) :
    (Kindergarten.resyncCascade r elems).1.state =
      List.range' r.nextId r.state.length ∧
    (Kindergarten.resyncCascade r elems).1.state.length = r.state.length ∧
    Kindergarten.countUpdates (Kindergarten.resyncCascade r elems).2 =
      2 * r.state.length ∧
    Kindergarten.countAdds (Kindergarten.resyncCascade r elems).2 =
      r.state.length ∧
    Kindergarten.countRemoves (Kindergarten.resyncCascade r elems).2 =
      r.state.length ∧
    ∀ x ∈ (Kindergarten.resyncCascade r elems).1.state, x ∉ r.state := by
  have hA := Kindergarten.registerMany_state r.state.length r
  have hAc := Kindergarten.registerMany_counts r.state.length r
    (by rw [hhooks]; rfl)
  have huA : (Kindergarten.registerMany r r.state.length).1.hooks.onUpdate = true := by
    rw [hA.2.2.1, hhooks]; rfl
  have hsubB : ∀ o ∈ r.state,
      o ∈ (Kindergarten.registerMany r r.state.length).1.state := by
    intro o ho
    rw [hA.1]
    exact List.mem_append_left _ ho
  have hB := Kindergarten.detachAll_spec r.state
    (Kindergarten.registerMany r r.state.length).1 huA hsubB
  have huC : (Kindergarten.detachAll
      (Kindergarten.registerMany r r.state.length).1 r.state).1.hooks.onUpdate = true := by
    rw [hB.2.1]; exact huA
  have hsubC : ∀ p ∈ (Kindergarten.registerMany r r.state.length).2.1.zip elems,
      p.1 ∈ (Kindergarten.detachAll
        (Kindergarten.registerMany r r.state.length).1 r.state).1.state := by
    intro p hp
    rw [hB.1, hA.1]
    rcases p with ⟨x, e⟩
    have hx := (List.of_mem_zip hp).1
    rw [hA.2.2.2] at hx
    exact List.mem_append_right _ hx
  have hC := Kindergarten.attachAll_spec
    ((Kindergarten.registerMany r r.state.length).2.1.zip elems)
    (Kindergarten.detachAll
      (Kindergarten.registerMany r r.state.length).1 r.state).1 huC hsubC
  have hziplen : ((Kindergarten.registerMany r r.state.length).2.1.zip elems).length
      = r.state.length := by
    rw [List.length_zip, hA.2.2.2, List.length_range', hlen]
    exact Nat.min_self _
  have hCstate : (Kindergarten.attachAll
      (Kindergarten.detachAll
        (Kindergarten.registerMany r r.state.length).1 r.state).1
      ((Kindergarten.registerMany r r.state.length).2.1.zip elems)).1.state =
      r.state ++ List.range' r.nextId r.state.length := by
    rw [hC.1, hB.1, hA.1]
  have hCr : (Kindergarten.attachAll
      (Kindergarten.detachAll
        (Kindergarten.registerMany r r.state.length).1 r.state).1
      ((Kindergarten.registerMany r r.state.length).2.1.zip elems)).1.hooks.onRemove = true := by
    rw [hC.2.1, hB.2.1, hA.2.2.1, hhooks]; rfl
  have hD := Kindergarten.removeAll_spec r.state
    (List.range' r.nextId r.state.length)
    (Kindergarten.attachAll
      (Kindergarten.detachAll
        (Kindergarten.registerMany r r.state.length).1 r.state).1
      ((Kindergarten.registerMany r r.state.length).2.1.zip elems)).1
    hCstate hCr
  refine ⟨?_, ?_, ?_, ?_, ?_, ?_⟩
  · show (Kindergarten.removeAll _ _).1.state = _
    exact hD.1
  · show (Kindergarten.removeAll _ _).1.state.length = _
    rw [hD.1, List.length_range']
  · show Kindergarten.countUpdates (_ ++ _ ++ _ ++ _) = _
    rw [Kindergarten.countUpdates_append, Kindergarten.countUpdates_append,
      Kindergarten.countUpdates_append, hAc.2.1, hB.2.2.2.1, hC.2.2.1,
      hD.2.2.1, hziplen]
    omega
  · show Kindergarten.countAdds (_ ++ _ ++ _ ++ _) = _
    rw [Kindergarten.countAdds_append, Kindergarten.countAdds_append,
      Kindergarten.countAdds_append, hAc.1, hB.2.2.2.2.1, hC.2.2.2.1,
      hD.2.2.2.1]
    omega
  · show Kindergarten.countRemoves (_ ++ _ ++ _ ++ _) = _
    rw [Kindergarten.countRemoves_append, Kindergarten.countRemoves_append,
      Kindergarten.countRemoves_append, hAc.2.2, hB.2.2.2.2.2, hC.2.2.2.2,
      hD.2.2.2.2]
    omega
  · intro x hx
    have hx' : x ∈ (Kindergarten.removeAll
        (Kindergarten.attachAll
          (Kindergarten.detachAll
            (Kindergarten.registerMany r r.state.length).1 r.state).1
          ((Kindergarten.registerMany r r.state.length).2.1.zip elems)).1
        r.state).1.state := hx
    rw [hD.1] at hx'
    have hge : r.nextId ≤ x := (List.mem_range'_1.1 hx').1
    intro hmem
    exact absurd hge (by have := harena x hmem; omega)

/-- Witness for C1 (amended) at a concrete registry of two records
`[0, 1]` with all observers bound, elements `[10, 20]`. -/
theorem c1_update_signal_recreates_records_witness :
    (({ state := [0, 1], store := fun _ => none, nextId := 2,
        hooks := Kindergarten.allHooks } : Kindergarten.Registry Nat).hooks =
        Kindergarten.allHooks ∧
     ([10, 20] : List Nat).length =
       ({ state := [0, 1], store := fun _ => none, nextId := 2,
          hooks := Kindergarten.allHooks } : Kindergarten.Registry Nat).state.length) ∧
    (Kindergarten.resyncCascade
      ({ state := [0, 1], store := fun _ => none, nextId := 2,
         hooks := Kindergarten.allHooks } : Kindergarten.Registry Nat)
      [10, 20]).1.state = List.range' 2 2 := by
  refine ⟨⟨rfl, rfl⟩, ?_⟩
  exact (c1_update_signal_recreates_records
    ({ state := [0, 1], store := fun _ => none, nextId := 2,
       hooks := Kindergarten.allHooks } : Kindergarten.Registry Nat)
    [10, 20] rfl rfl (by decide)).1
